import Mathlib

/-!
Verification development for `src/scripts/validate_test_result.py` of
pablitxn/spreadsheet-cli: a shallow embedding of the script's data model,
validator and entry point, followed by theorems about its behavior.
-/

/-- JSON values as produced by Python's `json.loads` (objects become dicts,
modeled as association lists; numbers modeled as rationals, since the script
performs no arithmetic on them). -/
inductive Json where
  | null : Json
  | bool : Bool → Json
  | num : ℚ → Json
  | str : String → Json
  | arr : List Json → Json
  | obj : List (String × Json) → Json
deriving Repr

/-- Python truthiness (`bool(x)`) of a JSON-derived value: `None`, `False`,
`0`, the empty string, the empty list and the empty dict are falsy. Used by
`sys.exit(0 if result.is_correct else 1)` on line 177. -/
def Json.truthy : Json → Bool
  | .null => false
  | .bool b => b
  | .num q => decide (q ≠ 0)
  | .str s => decide (s ≠ "")
  | .arr xs => !xs.isEmpty
  | .obj fs => !fs.isEmpty

/-- Field access on a JSON object (first binding wins; `json.loads` dicts
have unique keys). -/
def Json.getField (v : Json) (k : String) : Option Json :=
  match v with
  | .obj fs => List.lookup k fs
  | _ => none

/-- The keys of a JSON object, in order. -/
def Json.keyList : Json → List String
  | .obj fs => fs.map Prod.fst
  | _ => []

/-- The `TestValidationResult` dataclass (lines 27-34). The Python dataclass
annotates the fields as `bool`, `str`, `str`, `float`, `str` but performs no
runtime type checking, so `TestValidationResult(**result_data)` stores
whatever JSON values the service returned; the fields are therefore modeled
as arbitrary JSON values. -/
structure TestValidationResult where
  is_correct : Json
  extracted_answer : Json
  explanation : Json
  confidence : Json
  answer_location : Json
deriving Repr

/-- The five field names of `TestValidationResult`, in declaration order. -/
def requiredKeys : List String :=
  ["is_correct", "extracted_answer", "explanation", "confidence", "answer_location"]

/-- `TestValidationResult(**result_data)` (line 138): succeeds exactly when
`result_data` is a JSON object whose key set is exactly the five dataclass
field names; the field values are taken verbatim, with no type or range
checks. Any other shape raises a `TypeError` (modeled as `none`). -/
def mkValidationResult (v : Json) : Option TestValidationResult :=
  match v with
  | .obj fs =>
    match List.lookup "is_correct" fs, List.lookup "extracted_answer" fs,
          List.lookup "explanation" fs, List.lookup "confidence" fs,
          List.lookup "answer_location" fs with
    | some ic, some ea, some ex, some cf, some al =>
      if fs.all (fun p => requiredKeys.contains p.1) then
        some ⟨ic, ea, ex, cf, al⟩
      else none
    | _, _, _, _, _ => none
  | _ => none

/-- The shape `mkValidationResult` accepts: all five field names present and
no key outside the five. -/
def hasExactKeys (fs : List (String × Json)) : Bool :=
  (requiredKeys.all fun k => (List.lookup k fs).isSome) &&
    (fs.all fun p => requiredKeys.contains p.1)

/-- Models the text of the Python `TypeError` raised by
`TestValidationResult(**result_data)` when the parsed JSON is not an object
with exactly the five field names. No claim depends on the exact CPython
message text, only on it being the caught error's text. -/
def typeErrorMessage (v : Json) : String :=
  match v with
  | .obj _ => "TestValidationResult() got unexpected or missing keyword arguments"
  | _ => "argument after ** must be a mapping"

/-- The fixed error result built in the `except` clause of
`validate_test_result` (lines 140-148). -/
def errorResult (e : String) : TestValidationResult :=
  { is_correct := .bool false
    extracted_answer := .str "Error"
    explanation := .str ("Validation failed due to error: " ++ e)
    confidence := .num 0
    answer_location := .str "N/A" }

/-- Outcome of the single `chat.completions.create` call together with
`json.loads` on its message content, modeled at the system boundary: the
call raises (with message `e`), or returns content that is not valid JSON
(so `json.loads` raises with message `e`), or returns content that parses
to a JSON value. -/
inductive ServiceResponse where
  | exn : String → ServiceResponse
  | badJson : String → ServiceResponse
  | json : Json → ServiceResponse

/-- The error message of the `ValueError` raised on line 44. -/
def keyErrorMessage : String :=
  "OpenAI API key not found. Set OPENAI_API_KEY environment variable."

/-- Python's `a or b` on an optional string `a` (line 42): a `None` or empty
`a` falls through to `b`. -/
def pyOrString (a b : Option String) : Option String :=
  match a with
  | some s => if s = "" then b else some s
  | none => b

/-- The `TestValidator` object; only the resolved API key is state. -/
structure TestValidator where
  api_key : String

/-- `TestValidator.__init__` (lines 40-46): resolve
`api_key or os.environ.get('OPENAI_API_KEY')`, then raise `ValueError` if the
resolved value is `None` or empty. No network activity occurs here. -/
def TestValidator.init (api_key : Option String) (env : Option String) :
    Except String TestValidator :=
  match pyOrString api_key env with
  | some k => if k = "" then .error keyErrorMessage else .ok ⟨k⟩
  | none => .error keyErrorMessage

/-! ## The prompt (lines 51-90)

The source builds the prompt as a single f-string. It is transcribed here in
pieces (the fixed text around each interpolated input, with the rule-set
section further split around four landmark phrases); concatenating the pieces
in order yields the source string character for character. -/

/-- Fixed prompt text before the interpolated `question`. -/
def promptIntro : String :=
  "You are a test validator for a spreadsheet analysis CLI. Your job is to determine if the actual output correctly answers the given question.\n\nQuestion: "

/-- Fixed prompt text between `question` and `expected_answer`. -/
def promptExpectedLabel : String := "\nExpected Answer: "

/-- Fixed prompt text between `expected_answer` and `actual_output`. -/
def promptFieldsSection : String :=
  "\n\nThe CLI output may contain the answer in various fields:\n- Answer: Direct answer field\n- MachineAnswer: Machine-readable answer (numeric values, entity names)\n- Reasoning: Explanation that may contain the answer\n- SimpleAnswer: Alternative answer field\n- HumanExplanation: Human-readable explanation\n\nActual CLI Output:\n"

/-- Rule-set text: start of the VALIDATION RULES section, up to the numeric
tolerance phrase. -/
def promptRulesA : String :=
  "\n\nVALIDATION RULES:\n1. Numeric Comparison:\n   - Allow for small rounding differences ("

/-- Rule-set text between the numeric tolerance phrase and the
case-insensitivity phrase. -/
def promptRulesB : String :=
  " for decimals)\n   - Ignore formatting differences (commas, dollar signs, percent signs)\n   - \"12977.52\" matches \"12,977.52\" or \"$12977.52\"\n   - For percentages: \"48.69\" matches \"48.69%\" \n   \n2. Text Comparison:\n   - "

/-- Rule-set text between the case-insensitivity phrase and the extraction
priority heading. -/
def promptRulesC : String :=
  "\n   - \"MSFT\" matches \"msft\" or \"Msft\"\n   \n3. "

/-- Rule-set text between the extraction priority heading and the special
cases heading. -/
def promptRulesD : String :=
  ":\n   - First check MachineAnswer field (most reliable for numeric/entity answers)\n   - Then check Answer and SimpleAnswer fields\n   - Finally search in Reasoning field for answer patterns\n   - Look for patterns like \"The answer is X\", \"total is X\", \"average is X\"\n   \n4. "

/-- Rule-set text from the special cases heading to the end of the prompt. -/
def promptRulesE : String :=
  ":\n   - For \"Which X has highest/lowest Y\" questions: Accept either just the X value or the Y value\n   - For percentage questions: Accept with or without % sign\n   - For count questions: Look for \"X rows\", \"X records\", \"X unique values\"\n   \nIMPORTANT: Be flexible in extraction but strict in validation. The answer must be semantically correct.\n\nExtract the actual answer from the output and determine if it matches the expected answer."

/-- The full fixed rule-set text that follows the interpolated
`actual_output`. -/
def promptRules : String :=
  promptRulesA ++ ("±0.01" ++ (promptRulesB ++ ("Case-insensitive matching" ++
    (promptRulesC ++ ("Answer Extraction Priority" ++
      (promptRulesD ++ ("Special Cases" ++ promptRulesE)))))))

/-- The prompt f-string of `validate_test_result` (lines 51-90), as a
function of the three inputs. -/
def buildPrompt (question expected_answer actual_output : String) : String :=
  promptIntro ++ (question ++ (promptExpectedLabel ++ (expected_answer ++
    (promptFieldsSection ++ (actual_output ++ promptRules)))))

/-! ## The request (lines 92-135) -/

/-- One property of the JSON schema sent in `response_format`
(lines 104-131): a name, a JSON type, a description, and optional numeric
bounds. -/
structure JsonSchemaProperty where
  name : String
  type : String
  description : String
  minimum : Option ℚ
  maximum : Option ℚ
deriving Repr

/-- The object schema sent in `response_format` (lines 103-131). -/
structure JsonSchemaObject where
  type : String
  properties : List JsonSchemaProperty
  required : List String
  additionalProperties : Bool
deriving Repr

/-- The `response_format` argument (lines 98-133). -/
structure ResponseFormat where
  type : String
  name : String
  strict : Bool
  schema : JsonSchemaObject
deriving Repr

/-- The schema literal of lines 103-131, transcribed field by field. -/
def testValidationSchema : JsonSchemaObject :=
  { type := "object"
    properties :=
      [ { name := "is_correct", type := "boolean"
          description := "Whether the actual output correctly answers the question"
          minimum := none, maximum := none }
      , { name := "extracted_answer", type := "string"
          description := "The answer extracted from the actual output"
          minimum := none, maximum := none }
      , { name := "explanation", type := "string"
          description := "Brief explanation of why the test passed or failed"
          minimum := none, maximum := none }
      , { name := "confidence", type := "number"
          description := "Confidence level of the validation (0-1)"
          minimum := some 0, maximum := some 1 }
      , { name := "answer_location", type := "string"
          description := "Where the answer was found (e.g., \x27MachineAnswer field\x27, \x27Reasoning field\x27)"
          minimum := none, maximum := none } ]
    required := ["is_correct", "extracted_answer", "explanation", "confidence", "answer_location"]
    additionalProperties := false }

/-- The `response_format` literal of lines 98-133. -/
def testValidationResponseFormat : ResponseFormat :=
  { type := "json_schema"
    name := "test_validation"
    strict := true
    schema := testValidationSchema }

/-- The arguments of the single `chat.completions.create` call
(lines 93-135); messages are (role, content) pairs. -/
structure ChatRequest where
  model : String
  messages : List (String × String)
  response_format : ResponseFormat
  temperature : ℚ
deriving Repr

/-- The request literal of lines 93-135 for a given prompt. -/
def buildRequest (prompt : String) : ChatRequest :=
  { model := "gpt-4o-mini"
    messages := [("user", prompt)]
    response_format := testValidationResponseFormat
    temperature := 1 / 10 }

/-! ## The validator call and the entry point -/

/-- `TestValidator.validate_test_result` (lines 48-148), as a function of
the three inputs and of the boundary outcome of its single service call.
Returns the result together with the list of requests issued (the try block
issues exactly one; the except clause issues none). -/
def validate_test_result (question expected_answer actual_output : String)
    (svc : ServiceResponse) : TestValidationResult × List ChatRequest :=
  let req := buildRequest (buildPrompt question expected_answer actual_output)
  let result :=
    match svc with
    | .exn e => errorResult e
    | .badJson e => errorResult e
    | .json v =>
      match mkValidationResult v with
      | some r => r
      | none => errorResult (typeErrorMessage v)
  (result, [req])

/-- The parsed command line (lines 153-160). -/
structure Args where
  question : String
  expected_answer : String
  actual_output : String
  api_key : Option String
  verbose : Bool

/-- `json.dumps(asdict(result))` (line 174): the emitted JSON object, keys
in dataclass declaration order. -/
def resultToJson (r : TestValidationResult) : Json :=
  .obj [("is_correct", r.is_correct), ("extracted_answer", r.extracted_answer),
        ("explanation", r.explanation), ("confidence", r.confidence),
        ("answer_location", r.answer_location)]

/-- The `error_result` dict literal of lines 181-187, serialized on
line 188. -/
def mainErrorJson (e : String) : Json :=
  .obj [("is_correct", .bool false), ("extracted_answer", .str "Error"),
        ("explanation", .str e), ("confidence", .num 0),
        ("answer_location", .str "N/A")]

/-- Observable outcome of one run of `main`: the single JSON object written
to standard output, the process exit code, and the root logger level set on
standard error (Python `logging.INFO = 20`, `logging.WARNING = 30`). -/
structure MainOutcome where
  stdout : Json
  exitCode : ℕ
  logLevel : ℕ
deriving Repr

/-- `main` (lines 151-189), as a function of the parsed arguments, the
`OPENAI_API_KEY` environment variable, and the service-call outcome.
(Named `mainEntry` because Lean reserves `main` for executables.) -/
def mainEntry (args : Args) (env : Option String) (svc : ServiceResponse) : MainOutcome :=
  let lvl : ℕ := if args.verbose then 20 else 30
  match TestValidator.init args.api_key env with
  | .error e => { stdout := mainErrorJson e, exitCode := 1, logLevel := lvl }
  | .ok _ =>
    let r := (validate_test_result args.question args.expected_answer
      args.actual_output svc).1
    { stdout := resultToJson r
      exitCode := if r.is_correct.truthy then 0 else 1
      logLevel := lvl }

/-! ## Conformance to the requested schema

The spec treats the external service as returning JSON conforming to the
requested schema, or raising. The following is a generic checker for the
schema features the request uses (types, required, additionalProperties,
numeric bounds), to be applied to `testValidationSchema`. -/

/-- JSON type check for the type names used in the schema. -/
def typeOk (t : String) (v : Json) : Bool :=
  match v with
  | .null => t == "null"
  | .bool _ => t == "boolean"
  | .num _ => t == "number"
  | .str _ => t == "string"
  | .arr _ => t == "array"
  | .obj _ => t == "object"

/-- Check a JSON value against optional `minimum`/`maximum` bounds. -/
def boundOk (lo hi : Option ℚ) (v : Json) : Bool :=
  match v with
  | .num q =>
    (match lo with | some a => decide (a ≤ q) | none => true) &&
      (match hi with | some b => decide (q ≤ b) | none => true)
  | _ => true

/-- Check one schema property against an object's bindings (presence is
enforced by `required`, not here). -/
def propOk (fs : List (String × Json)) (p : JsonSchemaProperty) : Bool :=
  match List.lookup p.name fs with
  | some v => typeOk p.type v && boundOk p.minimum p.maximum v
  | none => true

/-- A JSON value conforms to an object schema: it is an object, every
declared property that is present has the declared type and bounds, every
required key is present, and (when `additionalProperties` is false) no key
outside the declared properties appears. -/
def Json.conforms (v : Json) (s : JsonSchemaObject) : Bool :=
  match v with
  | .obj fs =>
    (s.type == "object") && (s.properties.all fun p => propOk fs p) &&
      (s.required.all fun k => (List.lookup k fs).isSome) &&
      (s.additionalProperties || (fs.all fun p => s.properties.any fun d => d.name == p.1))
  | _ => false

/-- The service-contract hypothesis of the spec: the boundary outcome either
raised, or delivered JSON conforming to the requested schema. -/
def ServiceResponse.schemaOK : ServiceResponse → Bool
  | .json v => v.conforms testValidationSchema
  | _ => true

/-- The try block of `validate_test_result` raised an exception with message
`e`: the service call itself raised, or `json.loads` on the reply raised, or
`TestValidationResult(**result_data)` raised a `TypeError`. -/
def ServiceResponse.raisesWith : ServiceResponse → String → Bool
  | .exn m, e => m == e
  | .badJson m, e => m == e
  | .json v, e => (mkValidationResult v).isNone && (typeErrorMessage v == e)

/-! ## Helper lemmas -/

/-- A JSON object conforming to the requested schema has all five fields
present with the declared types, the confidence within its bounds, and no
extra keys. -/
theorem conforms_extract {fs : List (String × Json)}
    (h : Json.conforms (Json.obj fs) testValidationSchema = true) :
    ∃ b s1 s2 q s3,
      List.lookup "is_correct" fs = some (Json.bool b) ∧
      List.lookup "extracted_answer" fs = some (Json.str s1) ∧
      List.lookup "explanation" fs = some (Json.str s2) ∧
      List.lookup "confidence" fs = some (Json.num q) ∧
      0 ≤ q ∧ q ≤ 1 ∧
      List.lookup "answer_location" fs = some (Json.str s3) ∧
      (fs.all fun p => requiredKeys.contains p.1) = true := by
  simp only [Json.conforms, testValidationSchema, List.all_cons, List.all_nil, Bool.and_eq_true,
    Bool.and_true, Bool.true_and, beq_self_eq_true, List.any_cons, List.any_nil,
    Bool.or_eq_true, Bool.false_or, propOk] at h
  obtain ⟨⟨⟨h1, h2, h3, h4, h5⟩, r1, r2, r3, r4, r5⟩, hextra⟩ := h
  obtain ⟨v1, hv1⟩ := Option.isSome_iff_exists.mp r1
  obtain ⟨v2, hv2⟩ := Option.isSome_iff_exists.mp r2
  obtain ⟨v3, hv3⟩ := Option.isSome_iff_exists.mp r3
  obtain ⟨v4, hv4⟩ := Option.isSome_iff_exists.mp r4
  obtain ⟨v5, hv5⟩ := Option.isSome_iff_exists.mp r5
  simp only [hv1] at h1
  simp only [hv2] at h2
  simp only [hv3] at h3
  simp only [hv4] at h4
  simp only [hv5] at h5
  cases v1 <;> simp only [typeOk] at h1 <;> simp at h1
  case bool b =>
  cases v2 <;> simp only [typeOk] at h2 <;> simp at h2
  case str s1 =>
  cases v3 <;> simp only [typeOk] at h3 <;> simp at h3
  case str s2 =>
  cases v4 <;> simp only [typeOk, boundOk] at h4 <;> simp at h4
  case num q =>
  cases v5 <;> simp only [typeOk] at h5 <;> simp at h5
  case str s3 =>
  refine ⟨b, s1, s2, q, s3, hv1, hv2, hv3, hv4, h4.1, h4.2, hv5, ?_⟩
  rw [List.all_eq_true] at hextra ⊢
  intro p hp
  have hcp := hextra p hp
  simp only [requiredKeys, List.contains, List.elem_eq_mem, List.mem_cons, List.not_mem_nil,
    or_false, decide_eq_true_eq, Bool.or_eq_true, beq_iff_eq] at hcp ⊢
  tauto

/-- On a schema-conforming object, `TestValidationResult(**result_data)`
succeeds and yields correctly typed fields with confidence in bounds. -/
theorem mk_of_conforms {fs : List (String × Json)}
    (h : Json.conforms (Json.obj fs) testValidationSchema = true) :
    ∃ b s1 s2 q s3,
      mkValidationResult (Json.obj fs) =
        some ⟨Json.bool b, Json.str s1, Json.str s2, Json.num q, Json.str s3⟩ ∧
      0 ≤ q ∧ q ≤ 1 := by
  obtain ⟨b, s1, s2, q, s3, hv1, hv2, hv3, hv4, hq0, hq1, hv5, hall⟩ := conforms_extract h
  refine ⟨b, s1, s2, q, s3, ?_, hq0, hq1⟩
  simp only [mkValidationResult, hv1, hv2, hv3, hv4, hv5, hall, if_true]

/-- The serialized result of a correctly typed `TestValidationResult` with
in-bounds confidence itself conforms to the requested schema. -/
theorem resultToJson_conforms (b : Bool) (s1 s2 : String) (q : ℚ) (s3 : String)
    (h0 : 0 ≤ q) (h1 : q ≤ 1) :
    Json.conforms (resultToJson ⟨Json.bool b, Json.str s1, Json.str s2, Json.num q, Json.str s3⟩)
      testValidationSchema = true := by
  simp [Json.conforms, resultToJson, testValidationSchema, propOk, typeOk, boundOk,
    List.lookup, h0, h1]

/-- The serialized error result conforms to the requested schema. -/
theorem errorResult_toJson_conforms (e : String) :
    Json.conforms (resultToJson (errorResult e)) testValidationSchema = true := by
  simp [Json.conforms, resultToJson, errorResult, testValidationSchema, propOk, typeOk, boundOk,
    List.lookup]

/-- The entry point's own error JSON conforms to the requested schema. -/
theorem mainErrorJson_conforms (e : String) :
    Json.conforms (mainErrorJson e) testValidationSchema = true := by
  simp [Json.conforms, mainErrorJson, testValidationSchema, propOk, typeOk, boundOk,
    List.lookup]

/-- Serialization emits the five keys in dataclass declaration order. -/
theorem resultToJson_keyList (r : TestValidationResult) :
    (resultToJson r).keyList = requiredKeys := rfl

/-- The entry point's error JSON has the five keys in the same order. -/
theorem mainErrorJson_keyList (e : String) :
    (mainErrorJson e).keyList = requiredKeys := rfl

/-! ## Claims -/

/-- Claim C1: for every invocation of `validate_test_result`, if any
exception is raised during the service call or during parsing of the
service's response, the exception is not propagated and the returned result
is exactly: `is_correct = false`, `extracted_answer = "Error"`,
`explanation` containing the error's text, `confidence = 0.0`,
`answer_location = "N/A"`. -/
theorem claim_C1_exceptions_become_error_result
    (question expected_answer actual_output : String)
    (svc : ServiceResponse) (e : String) (h : svc.raisesWith e = true) :
    (validate_test_result question expected_answer actual_output svc).1 = errorResult e ∧
    errorResult e =
      ⟨Json.bool false, Json.str "Error",
       Json.str ("Validation failed due to error: " ++ e),
       Json.num 0, Json.str "N/A"⟩ := by
  refine ⟨?_, rfl⟩
  cases svc with
  | exn m =>
    simp only [ServiceResponse.raisesWith, beq_iff_eq] at h
    subst h; rfl
  | badJson m =>
    simp only [ServiceResponse.raisesWith, beq_iff_eq] at h
    subst h; rfl
  | json v =>
    simp only [ServiceResponse.raisesWith, Bool.and_eq_true, beq_iff_eq,
      Option.isNone_iff_eq_none] at h
    obtain ⟨hnone, he⟩ := h
    subst he
    simp [validate_test_result, hnone]

/-- Witness for C1 at a concrete failing service call. -/
theorem claim_C1_witness :
    (validate_test_result "q" "ea" "ao" (ServiceResponse.exn "boom")).1 = errorResult "boom" ∧
    errorResult "boom" =
      ⟨Json.bool false, Json.str "Error",
       Json.str ("Validation failed due to error: " ++ "boom"),
       Json.num 0, Json.str "N/A"⟩ :=
  claim_C1_exceptions_become_error_result "q" "ea" "ao" (ServiceResponse.exn "boom") "boom"
    (by decide)

/-- Claim C5: for any successful structured response from the external
service (a reply conforming to the requested schema), the confidence field
of the result produced by `validate_test_result` lies within `[0, 1]`. -/
theorem claim_C5_confidence_in_unit_interval
    (question expected_answer actual_output : String) (v : Json)
    (h : v.conforms testValidationSchema = true) :
    ∃ q : ℚ,
      (validate_test_result question expected_answer actual_output
        (ServiceResponse.json v)).1.confidence = Json.num q ∧ 0 ≤ q ∧ q ≤ 1 := by
  cases v with
  | obj fs =>
    obtain ⟨b, s1, s2, q, s3, hmk, h0, h1⟩ := mk_of_conforms h
    exact ⟨q, by simp [validate_test_result, hmk], h0, h1⟩
  | null => simp [Json.conforms] at h
  | bool b => simp [Json.conforms] at h
  | num q => simp [Json.conforms] at h
  | str s => simp [Json.conforms] at h
  | arr xs => simp [Json.conforms] at h

/-- Witness for C5 at a concrete schema-conforming reply. -/
theorem claim_C5_witness :
    ∃ q : ℚ,
      (validate_test_result "q" "ea" "ao"
        (ServiceResponse.json (Json.obj
          [("is_correct", Json.bool true), ("extracted_answer", Json.str "42"),
           ("explanation", Json.str "matches"), ("confidence", Json.num 1),
           ("answer_location", Json.str "Answer field")]))).1.confidence = Json.num q ∧
      0 ≤ q ∧ q ≤ 1 :=
  claim_C5_confidence_in_unit_interval "q" "ea" "ao" _
    (by simp [Json.conforms, testValidationSchema, propOk, typeOk, boundOk, List.lookup])

/-- Claim C6: each invocation of `validate_test_result` issues exactly one
request — the same single request whatever the service outcome, so never
more than one and no retry on failure — and that request carries a response
schema with exactly the five required fields of `TestValidationResult`
(with their declared types), no additional properties permitted, and a
low-randomness sampling setting (`temperature = 0.1`). -/
theorem claim_C6_single_request_fixed_schema
    (question expected_answer actual_output : String) (svc : ServiceResponse) :
    (validate_test_result question expected_answer actual_output svc).2 =
      [buildRequest (buildPrompt question expected_answer actual_output)] ∧
    (validate_test_result question expected_answer actual_output svc).2.length = 1 ∧
    (∀ svc2 : ServiceResponse,
      (validate_test_result question expected_answer actual_output svc2).2 =
        (validate_test_result question expected_answer actual_output svc).2) ∧
    (buildRequest (buildPrompt question expected_answer actual_output)).response_format.schema.required
      = requiredKeys ∧
    ((buildRequest (buildPrompt question expected_answer actual_output)).response_format.schema.properties.map
      fun p => p.name) = requiredKeys ∧
    ((buildRequest (buildPrompt question expected_answer actual_output)).response_format.schema.properties.map
      fun p => p.type) = ["boolean", "string", "string", "number", "string"] ∧
    (buildRequest (buildPrompt question expected_answer actual_output)).response_format.schema.additionalProperties
      = false ∧
    (buildRequest (buildPrompt question expected_answer actual_output)).response_format.strict = true ∧
    (buildRequest (buildPrompt question expected_answer actual_output)).temperature = 1 / 10 ∧
    (buildRequest (buildPrompt question expected_answer actual_output)).temperature < 1 := by
  refine ⟨rfl, rfl, fun svc2 => rfl, rfl, rfl, rfl, rfl, rfl, rfl, ?_⟩
  norm_num [buildRequest]

/-- Claim C8: the prompt built by `validate_test_result` is a deterministic
function of the three inputs — equal inputs give equal prompt texts — and
each prompt embeds all three inputs together with the fixed rule set
(numeric tolerance ±0.01, case-insensitive matching, extraction priority,
special cases). -/
theorem claim_C8_prompt_deterministic_and_embeds
    (q1 ea1 ao1 q2 ea2 ao2 : String)
    (hq : q1 = q2) (hea : ea1 = ea2) (hao : ao1 = ao2) :
    buildPrompt q1 ea1 ao1 = buildPrompt q2 ea2 ao2 ∧
    buildPrompt q1 ea1 ao1 =
      promptIntro ++ (q1 ++ (promptExpectedLabel ++ (ea1 ++
        (promptFieldsSection ++ (ao1 ++ promptRules))))) ∧
    (∃ u v, promptRules = u ++ ("±0.01" ++ v)) ∧
    (∃ u v, promptRules = u ++ ("Case-insensitive matching" ++ v)) ∧
    (∃ u v, promptRules = u ++ ("Answer Extraction Priority" ++ v)) ∧
    (∃ u v, promptRules = u ++ ("Special Cases" ++ v)) := by
  subst hq; subst hea; subst hao
  refine ⟨rfl, rfl,
    ⟨promptRulesA,
     promptRulesB ++ ("Case-insensitive matching" ++ (promptRulesC ++
       ("Answer Extraction Priority" ++ (promptRulesD ++ ("Special Cases" ++ promptRulesE))))),
     rfl⟩, ?_, ?_, ?_⟩
  · exact ⟨promptRulesA ++ ("±0.01" ++ promptRulesB),
      promptRulesC ++ ("Answer Extraction Priority" ++
        (promptRulesD ++ ("Special Cases" ++ promptRulesE))),
      by simp [promptRules, String.append_assoc]⟩
  · exact ⟨promptRulesA ++ ("±0.01" ++ (promptRulesB ++ ("Case-insensitive matching" ++
        promptRulesC))),
      promptRulesD ++ ("Special Cases" ++ promptRulesE),
      by simp [promptRules, String.append_assoc]⟩
  · exact ⟨promptRulesA ++ ("±0.01" ++ (promptRulesB ++ ("Case-insensitive matching" ++
        (promptRulesC ++ ("Answer Extraction Priority" ++ promptRulesD))))),
      promptRulesE,
      by simp [promptRules, String.append_assoc]⟩

/-- Witness for C8 at concrete inputs. -/
theorem claim_C8_witness :
    buildPrompt "Q" "E" "A" = buildPrompt "Q" "E" "A" ∧
    buildPrompt "Q" "E" "A" =
      promptIntro ++ ("Q" ++ (promptExpectedLabel ++ ("E" ++
        (promptFieldsSection ++ ("A" ++ promptRules))))) ∧
    (∃ u v, promptRules = u ++ ("±0.01" ++ v)) ∧
    (∃ u v, promptRules = u ++ ("Case-insensitive matching" ++ v)) ∧
    (∃ u v, promptRules = u ++ ("Answer Extraction Priority" ++ v)) ∧
    (∃ u v, promptRules = u ++ ("Special Cases" ++ v)) :=
  claim_C8_prompt_deterministic_and_embeds "Q" "E" "A" "Q" "E" "A" rfl rfl rfl

/-- If `TestValidationResult(**result_data)` succeeds, the object had exactly
the five field names. -/
theorem mk_isSome_imp (fs : List (String × Json))
    (h : (mkValidationResult (Json.obj fs)).isSome = true) : hasExactKeys fs = true := by
  simp only [mkValidationResult] at h
  split at h
  · rename_i ic ea ex cf al h1 h2 h3 h4 h5
    split at h
    · rename_i hall
      simp [hasExactKeys, requiredKeys, h1, h2, h3, h4, h5]
      simpa [requiredKeys, List.all_eq_true] using hall
    · simp at h
  · simp at h

/-- Claim C2: for every run of the entry point the exit code is 0 or 1, and
— under the spec's service contract (a reply, when one is delivered,
conforms to the requested schema) — it is 0 exactly when the `is_correct`
field of the JSON object emitted on standard output is `true`; every error
path exits 1 with `is_correct = false`. -/
theorem claim_C2_exit_code_iff_is_correct (args : Args) (env : Option String)
    (svc : ServiceResponse) (h : svc.schemaOK = true) :
    (∀ svc2 : ServiceResponse,
      (mainEntry args env svc2).exitCode = 0 ∨ (mainEntry args env svc2).exitCode = 1) ∧
    ((mainEntry args env svc).exitCode = 0 ↔
      (mainEntry args env svc).stdout.getField "is_correct" = some (Json.bool true)) := by
  constructor
  · intro svc2
    rcases hinit : TestValidator.init args.api_key env with e | t
    · right; simp [mainEntry, hinit]
    · simp only [mainEntry, hinit]
      cases htr : ((validate_test_result args.question args.expected_answer
          args.actual_output svc2).1).is_correct.truthy
      · right; simp [htr]
      · left; simp [htr]
  · rcases hinit : TestValidator.init args.api_key env with e | t
    · simp [mainEntry, hinit, mainErrorJson, Json.getField, List.lookup]
    · cases svc with
      | exn m =>
        simp [mainEntry, hinit, validate_test_result, errorResult, Json.truthy,
          resultToJson, Json.getField, List.lookup]
      | badJson m =>
        simp [mainEntry, hinit, validate_test_result, errorResult, Json.truthy,
          resultToJson, Json.getField, List.lookup]
      | json v =>
        simp only [ServiceResponse.schemaOK] at h
        cases v with
        | obj fs =>
          obtain ⟨b, s1, s2, q, s3, hmk, h0, h1⟩ := mk_of_conforms h
          simp only [mainEntry, hinit, validate_test_result, hmk]
          cases b <;> simp [Json.truthy, resultToJson, Json.getField, List.lookup]
        | null => simp [Json.conforms] at h
        | bool b => simp [Json.conforms] at h
        | num q => simp [Json.conforms] at h
        | str s => simp [Json.conforms] at h
        | arr xs => simp [Json.conforms] at h

/-- Witness for C2 at a concrete schema-conforming run. -/
theorem claim_C2_witness :
    (∀ svc2 : ServiceResponse,
      (mainEntry ⟨"q", "ea", "ao", some "sk", false⟩ none svc2).exitCode = 0 ∨
      (mainEntry ⟨"q", "ea", "ao", some "sk", false⟩ none svc2).exitCode = 1) ∧
    ((mainEntry ⟨"q", "ea", "ao", some "sk", false⟩ none
        (ServiceResponse.json (Json.obj
          [("is_correct", Json.bool true), ("extracted_answer", Json.str "42"),
           ("explanation", Json.str "matches"), ("confidence", Json.num 1),
           ("answer_location", Json.str "Answer field")]))).exitCode = 0 ↔
      (mainEntry ⟨"q", "ea", "ao", some "sk", false⟩ none
        (ServiceResponse.json (Json.obj
          [("is_correct", Json.bool true), ("extracted_answer", Json.str "42"),
           ("explanation", Json.str "matches"), ("confidence", Json.num 1),
           ("answer_location", Json.str "Answer field")]))).stdout.getField "is_correct" =
        some (Json.bool true)) :=
  claim_C2_exit_code_iff_is_correct ⟨"q", "ea", "ao", some "sk", false⟩ none
    (ServiceResponse.json (Json.obj
      [("is_correct", Json.bool true), ("extracted_answer", Json.str "42"),
       ("explanation", Json.str "matches"), ("confidence", Json.num 1),
       ("answer_location", Json.str "Answer field")]))
    (by simp [ServiceResponse.schemaOK, Json.conforms, testValidationSchema, propOk,
      typeOk, boundOk, List.lookup])

/-- Claim C4: for every well-formed invocation of the entry point (service
contract as in the spec), standard output contains exactly one JSON object
whose keys are exactly the five result fields in fixed declaration order,
with values correctly typed (boolean, string, string, number in `[0, 1]`,
string — i.e. the output itself conforms to the requested schema). -/
theorem claim_C4_output_keys_and_types (args : Args) (env : Option String)
    (svc : ServiceResponse) (h : svc.schemaOK = true) :
    (mainEntry args env svc).stdout.keyList = requiredKeys ∧
    Json.conforms (mainEntry args env svc).stdout testValidationSchema = true := by
  rcases hinit : TestValidator.init args.api_key env with e | t
  · constructor
    · simp only [mainEntry, hinit]
      exact mainErrorJson_keyList e
    · simp only [mainEntry, hinit]
      exact mainErrorJson_conforms e
  · cases svc with
    | exn m =>
      constructor
      · simp only [mainEntry, hinit]
        exact resultToJson_keyList _
      · simp only [mainEntry, hinit, validate_test_result]
        exact errorResult_toJson_conforms m
    | badJson m =>
      constructor
      · simp only [mainEntry, hinit]
        exact resultToJson_keyList _
      · simp only [mainEntry, hinit, validate_test_result]
        exact errorResult_toJson_conforms m
    | json v =>
      simp only [ServiceResponse.schemaOK] at h
      cases v with
      | obj fs =>
        obtain ⟨b, s1, s2, q, s3, hmk, h0, h1⟩ := mk_of_conforms h
        constructor
        · simp only [mainEntry, hinit]
          exact resultToJson_keyList _
        · simp only [mainEntry, hinit, validate_test_result, hmk]
          exact resultToJson_conforms b s1 s2 q s3 h0 h1
      | null => simp [Json.conforms] at h
      | bool b => simp [Json.conforms] at h
      | num q => simp [Json.conforms] at h
      | str s => simp [Json.conforms] at h
      | arr xs => simp [Json.conforms] at h

/-- Witness for C4 at a concrete schema-conforming run. -/
theorem claim_C4_witness :
    (mainEntry ⟨"q", "ea", "ao", some "sk", false⟩ none
      (ServiceResponse.json (Json.obj
        [("is_correct", Json.bool true), ("extracted_answer", Json.str "42"),
         ("explanation", Json.str "matches"), ("confidence", Json.num 1),
         ("answer_location", Json.str "Answer field")]))).stdout.keyList = requiredKeys ∧
    Json.conforms (mainEntry ⟨"q", "ea", "ao", some "sk", false⟩ none
      (ServiceResponse.json (Json.obj
        [("is_correct", Json.bool true), ("extracted_answer", Json.str "42"),
         ("explanation", Json.str "matches"), ("confidence", Json.num 1),
         ("answer_location", Json.str "Answer field")]))).stdout testValidationSchema = true :=
  claim_C4_output_keys_and_types ⟨"q", "ea", "ao", some "sk", false⟩ none
    (ServiceResponse.json (Json.obj
      [("is_correct", Json.bool true), ("extracted_answer", Json.str "42"),
       ("explanation", Json.str "matches"), ("confidence", Json.num 1),
       ("answer_location", Json.str "Answer field")]))
    (by simp [ServiceResponse.schemaOK, Json.conforms, testValidationSchema, propOk,
      typeOk, boundOk, List.lookup])

/-- Claim C7: if validator construction fails in the entry point, the
failure is caught and the entry point emits an error-shaped JSON object
with the same five fields and the same error semantics as the validator's
internal error path (`is_correct = false`, `extracted_answer = "Error"`,
`explanation` containing the error's text, `confidence = 0.0`,
`answer_location = "N/A"`), then exits 1. -/
theorem claim_C7_construction_failure_path (args : Args) (env : Option String)
    (svc : ServiceResponse) (e : String)
    (h : TestValidator.init args.api_key env = Except.error e) :
    (mainEntry args env svc).exitCode = 1 ∧
    (mainEntry args env svc).stdout = mainErrorJson e ∧
    mainErrorJson e =
      Json.obj [("is_correct", Json.bool false), ("extracted_answer", Json.str "Error"),
        ("explanation", Json.str e), ("confidence", Json.num 0),
        ("answer_location", Json.str "N/A")] ∧
    (mainEntry args env svc).stdout.keyList = requiredKeys := by
  refine ⟨?_, ?_, rfl, ?_⟩ <;> simp [mainEntry, h, mainErrorJson_keyList]

/-- Witness for C7: no `--api-key`, no `OPENAI_API_KEY`. -/
theorem claim_C7_witness :
    (mainEntry ⟨"q", "ea", "ao", none, false⟩ none (ServiceResponse.exn "x")).exitCode = 1 ∧
    (mainEntry ⟨"q", "ea", "ao", none, false⟩ none (ServiceResponse.exn "x")).stdout =
      mainErrorJson keyErrorMessage ∧
    mainErrorJson keyErrorMessage =
      Json.obj [("is_correct", Json.bool false), ("extracted_answer", Json.str "Error"),
        ("explanation", Json.str keyErrorMessage), ("confidence", Json.num 0),
        ("answer_location", Json.str "N/A")] ∧
    (mainEntry ⟨"q", "ea", "ao", none, false⟩ none (ServiceResponse.exn "x")).stdout.keyList =
      requiredKeys :=
  claim_C7_construction_failure_path ⟨"q", "ea", "ao", none, false⟩ none
    (ServiceResponse.exn "x") keyErrorMessage rfl

/-- Claim C9: response parsing performs no local type or range validation —
any reply parsing to a JSON object with exactly the five field names is
accepted and returned verbatim as the `TestValidationResult` (whatever the
value types), while a reply whose parsed JSON has missing or extra field
names, or is not valid JSON, falls through to the fixed error-shaped result
rather than crashing. -/
theorem claim_C9_verbatim_acceptance_no_type_checks
    (question expected_answer actual_output : String) :
    (∀ fs, hasExactKeys fs = true →
      (validate_test_result question expected_answer actual_output
        (ServiceResponse.json (Json.obj fs))).1 =
        ⟨(List.lookup "is_correct" fs).getD Json.null,
         (List.lookup "extracted_answer" fs).getD Json.null,
         (List.lookup "explanation" fs).getD Json.null,
         (List.lookup "confidence" fs).getD Json.null,
         (List.lookup "answer_location" fs).getD Json.null⟩) ∧
    (∀ fs, hasExactKeys fs = false → mkValidationResult (Json.obj fs) = none) ∧
    (∀ v, mkValidationResult v = none →
      (validate_test_result question expected_answer actual_output
        (ServiceResponse.json v)).1 = errorResult (typeErrorMessage v)) ∧
    (∀ e, (validate_test_result question expected_answer actual_output
      (ServiceResponse.badJson e)).1 = errorResult e) := by
  refine ⟨?_, ?_, ?_, fun e => rfl⟩
  · intro fs h
    simp only [hasExactKeys, requiredKeys, List.all_cons, List.all_nil, Bool.and_eq_true,
      Bool.and_true] at h
    obtain ⟨⟨r1, r2, r3, r4, r5⟩, hall⟩ := h
    obtain ⟨v1, hv1⟩ := Option.isSome_iff_exists.mp r1
    obtain ⟨v2, hv2⟩ := Option.isSome_iff_exists.mp r2
    obtain ⟨v3, hv3⟩ := Option.isSome_iff_exists.mp r3
    obtain ⟨v4, hv4⟩ := Option.isSome_iff_exists.mp r4
    obtain ⟨v5, hv5⟩ := Option.isSome_iff_exists.mp r5
    have hall2 : (fs.all fun p => requiredKeys.contains p.1) = true := by
      simpa [requiredKeys] using hall
    simp only [validate_test_result, mkValidationResult, hv1, hv2, hv3, hv4, hv5,
      Option.getD_some]
    rw [if_pos hall2]
  · intro fs h
    rcases hmk : mkValidationResult (Json.obj fs) with _ | r
    · rfl
    · have := mk_isSome_imp fs (by simp [hmk])
      simp [h] at this
  · intro v hv
    simp [validate_test_result, hv]

/-- Witness for C9: a reply with the five field names but wildly wrong value
types is accepted verbatim; a reply with a missing field errors. -/
theorem claim_C9_witness :
    ((validate_test_result "q" "ea" "ao"
        (ServiceResponse.json (Json.obj
          [("is_correct", Json.str "yes"), ("extracted_answer", Json.num 7),
           ("explanation", Json.null), ("confidence", Json.str "high"),
           ("answer_location", Json.arr [])]))).1 =
      ⟨(List.lookup "is_correct"
          [("is_correct", Json.str "yes"), ("extracted_answer", Json.num 7),
           ("explanation", Json.null), ("confidence", Json.str "high"),
           ("answer_location", Json.arr [])]).getD Json.null,
       (List.lookup "extracted_answer"
          [("is_correct", Json.str "yes"), ("extracted_answer", Json.num 7),
           ("explanation", Json.null), ("confidence", Json.str "high"),
           ("answer_location", Json.arr [])]).getD Json.null,
       (List.lookup "explanation"
          [("is_correct", Json.str "yes"), ("extracted_answer", Json.num 7),
           ("explanation", Json.null), ("confidence", Json.str "high"),
           ("answer_location", Json.arr [])]).getD Json.null,
       (List.lookup "confidence"
          [("is_correct", Json.str "yes"), ("extracted_answer", Json.num 7),
           ("explanation", Json.null), ("confidence", Json.str "high"),
           ("answer_location", Json.arr [])]).getD Json.null,
       (List.lookup "answer_location"
          [("is_correct", Json.str "yes"), ("extracted_answer", Json.num 7),
           ("explanation", Json.null), ("confidence", Json.str "high"),
           ("answer_location", Json.arr [])]).getD Json.null⟩) ∧
    mkValidationResult (Json.obj [("is_correct", Json.bool true)]) = none :=
  ⟨(claim_C9_verbatim_acceptance_no_type_checks "q" "ea" "ao").1
      [("is_correct", Json.str "yes"), ("extracted_answer", Json.num 7),
       ("explanation", Json.null), ("confidence", Json.str "high"),
       ("answer_location", Json.arr [])] (by decide),
   (claim_C9_verbatim_acceptance_no_type_checks "q" "ea" "ao").2.1
      [("is_correct", Json.bool true)] (by decide)⟩

/-- Claim C10: the `--verbose` flag is noninterfering with the program's
result — for identical inputs, credential state and service reply, the JSON
on standard output and the exit code are identical with and without the
flag; the flag changes only the standard-error log level (INFO = 20 versus
WARNING = 30). -/
theorem claim_C10_verbose_noninterference
    (question expected_answer actual_output : String) (api_key env : Option String)
    (svc : ServiceResponse) :
    (mainEntry ⟨question, expected_answer, actual_output, api_key, true⟩ env svc).stdout =
      (mainEntry ⟨question, expected_answer, actual_output, api_key, false⟩ env svc).stdout ∧
    (mainEntry ⟨question, expected_answer, actual_output, api_key, true⟩ env svc).exitCode =
      (mainEntry ⟨question, expected_answer, actual_output, api_key, false⟩ env svc).exitCode ∧
    (mainEntry ⟨question, expected_answer, actual_output, api_key, true⟩ env svc).logLevel = 20 ∧
    (mainEntry ⟨question, expected_answer, actual_output, api_key, false⟩ env svc).logLevel = 30 := by
  rcases hinit : TestValidator.init api_key env with e | t <;>
    simp [mainEntry, hinit]

/-- Claim C3 counterexample: an explicitly supplied empty credential is not
used even though `OPENAI_API_KEY` is set — Python's `or` treats the empty
string as absent, so the environment value wins over the supplied one. -/
theorem claim_C3_counterexample :
    TestValidator.init (some "") (some "sk-env") = Except.ok ⟨"sk-env"⟩ ∧
    ("" : String) ≠ "sk-env" := ⟨rfl, by decide⟩

/-- Claim C3 (amended): construction with no usable credential — explicit
credential absent or empty, and `OPENAI_API_KEY` absent or empty — raises
the configuration error, before any service interaction (the run's outcome
is then independent of the service); a non-empty explicit credential is
used when supplied; an absent or empty explicit credential falls back to
the environment variable, which is used when non-empty. -/
theorem claim_C3_amended_credential_resolution (env : Option String) :
    TestValidator.init none none = Except.error keyErrorMessage ∧
    TestValidator.init (some "") none = Except.error keyErrorMessage ∧
    TestValidator.init none (some "") = Except.error keyErrorMessage ∧
    TestValidator.init (some "") (some "") = Except.error keyErrorMessage ∧
    (∀ k, k ≠ "" → TestValidator.init (some k) env = Except.ok ⟨k⟩) ∧
    (∀ k, k ≠ "" → TestValidator.init none (some k) = Except.ok ⟨k⟩) ∧
    (∀ k, k ≠ "" → TestValidator.init (some "") (some k) = Except.ok ⟨k⟩) ∧
    (∀ (a : Args) (e : String) (s1 s2 : ServiceResponse),
      TestValidator.init a.api_key env = Except.error e →
      mainEntry a env s1 = mainEntry a env s2) := by
  refine ⟨rfl, rfl, rfl, rfl, ?_, ?_, ?_, ?_⟩
  · intro k hk
    simp [TestValidator.init, pyOrString, hk]
  · intro k hk
    simp [TestValidator.init, pyOrString, hk]
  · intro k hk
    simp [TestValidator.init, pyOrString, hk]
  · intro a e s1 s2 h
    simp [mainEntry, h]

/-- Witness for the amended C3. -/
theorem claim_C3_amended_witness :
    TestValidator.init (some "sk-x") none = Except.ok ⟨"sk-x"⟩ ∧
    mainEntry ⟨"q", "ea", "ao", none, false⟩ none (ServiceResponse.exn "a") =
      mainEntry ⟨"q", "ea", "ao", none, false⟩ none (ServiceResponse.badJson "b") :=
  ⟨(claim_C3_amended_credential_resolution none).2.2.2.2.1 "sk-x" (by decide),
   (claim_C3_amended_credential_resolution none).2.2.2.2.2.2.2
     ⟨"q", "ea", "ao", none, false⟩ keyErrorMessage
     (ServiceResponse.exn "a") (ServiceResponse.badJson "b") rfl⟩
